import Mathlib

/-!
Verification of the DocumentConversion repository.

The repository ships two layers:
* a conversion core (FormatRegistry, FileValidator, StrategySelector,
  ConversionEngine, BatchRunner) described by the project documentation;
  its implementation file is not part of the checked-in sources, so the
  definitions below are modelled from the spec, faithful to its words;
* a CloudBase MCP server (`src/index.ts`) whose `createServer` registers
  two database tools; that part is embedded directly from the source.
-/

namespace DocConv

/-- Modelled from the spec: the enumerated set of supported formats
(pdf, docx, markdown, html, txt); the implementation file holding the
conversion core is missing from the sources. -/
inductive Format
  | pdf
  | docx
  | markdown
  | html
  | txt
deriving DecidableEq, Repr

/-- Modelled from the spec: FormatRegistry resolution of a file name to a
format by its extension, per the documented extension table; unknown
extensions yield `none` rather than a default guess. -/
def resolveName (name : String) : Option Format :=
  if name.endsWith ".pdf" then some .pdf
  else if name.endsWith ".docx" || name.endsWith ".doc" then some .docx
  else if name.endsWith ".md" || name.endsWith ".markdown" then some .markdown
  else if name.endsWith ".html" || name.endsWith ".htm" then some .html
  else if name.endsWith ".txt" || name.endsWith ".text" then some .txt
  else none

/-- Modelled from the spec: every registered format is readable, per the
documented capability table. -/
def readable : Format → Bool := fun _ => true

/-- Modelled from the spec: every registered format is writable, per the
documented capability table. -/
def writable : Format → Bool := fun _ => true

/-- Modelled from the spec: the documented default maximum file size
(10MB). -/
def MAX_FILE_SIZE : Nat := 10 * 1024 * 1024

/-- Modelled from the spec: the error taxonomy of the conversion core. -/
inductive ErrorKind
  | NotFound
  | UnsupportedFormat
  | FileTooLarge
  | NoStrategyAvailable
  | BackendFault
  | Timeout
  | EmptyOutput
  | IOFailure
deriving DecidableEq, Repr

/-- Modelled from the spec: an immutable conversion request. -/
structure ConversionRequest where
  sourcePath : String
  sourceFormat : Format
  targetFormat : Format
  outputPath : Option String
  maxSizeOverride : Option Nat
deriving DecidableEq, Repr

/-- Modelled from the spec: outcome of FileValidator. -/
inductive ValidationOutcome
  | valid
  | invalid (e : ErrorKind)
deriving DecidableEq, Repr

/-- Modelled from the spec: FileValidator checks existence, readability of
the resolved format, and size against the configured limit; a file system
is abstracted as a partial map from path to byte size. -/
def validate (fs : String → Option Nat) (path : String) (fmt : Format)
    (maxSizeBytes : Nat) : ValidationOutcome :=
  match fs path with
  | none => .invalid .NotFound
  | some size =>
    if readable fmt = false then .invalid .UnsupportedFormat
    else if maxSizeBytes < size then .invalid .FileTooLarge
    else .valid

/-- Modelled from the spec: a structured outcome reported by a strategy
backend. -/
inductive ConversionOutcome
  | success (outputPath : String) (bytesWritten : Nat)
  | failure (errorKind : ErrorKind) (message : String)
deriving DecidableEq, Repr

/-- Modelled from the spec: a strategy execution either returns a
structured outcome or raises an unexpected fault. -/
inductive ExecResult
  | returned (o : ConversionOutcome)
  | fault (message : String)
deriving DecidableEq, Repr

/-- Modelled from the spec: a conversion strategy with a name, a priority
rank (lower preferred), a capability predicate and an execute operation. -/
structure Strategy where
  name : String
  priority : Nat
  supports : Format → Format → Bool
  execute : ConversionRequest → ExecResult

/-- Modelled from the spec: one recorded failure reason, carrying the
error kind, a message and the strategy attempted. -/
structure FailureInfo where
  errorKind : ErrorKind
  message : String
  strategyAttempted : String
deriving DecidableEq, Repr

/-- Modelled from the spec: the final result of a conversion, either one
success (with the strategy used and the earlier attempts kept as
diagnostic data) or an aggregated failure listing every reason. -/
inductive ConversionResult
  | success (outputPath : String) (bytesWritten : Nat) (strategyUsed : String)
      (diagnostics : List FailureInfo)
  | failure (reasons : List FailureInfo)
deriving DecidableEq, Repr

/-- Priority order on strategies used by StrategySelector. -/
def stratLE (a b : Strategy) : Prop := a.priority ≤ b.priority

instance : DecidableRel stratLE := fun a b => Nat.decLe a.priority b.priority

instance : IsTotal Strategy stratLE := ⟨fun a b => Nat.le_total a.priority b.priority⟩

instance : IsTrans Strategy stratLE := ⟨fun _ _ _ => Nat.le_trans⟩

/-- Modelled from the spec: StrategySelector collects every registered
strategy supporting the pair and sorts ascending by priority, ties broken
stably by registration order (insertion sort is stable). -/
def order (registered : List Strategy) (s t : Format) : List Strategy :=
  List.insertionSort stratLE (registered.filter (fun st => st.supports s t))

/-- Modelled from the spec: one strategy attempt as seen by the engine:
an unexpected fault is wrapped as a BackendFault failure; a reported
success is verified against the observed output (missing output is an
IOFailure, zero-byte output is an EmptyOutput failure). -/
def attempt (checkFs : String → Option Nat) (req : ConversionRequest)
    (s : Strategy) : Sum FailureInfo (String × Nat) :=
  match s.execute req with
  | .fault msg => .inl ⟨.BackendFault, msg, s.name⟩
  | .returned (.failure k m) => .inl ⟨k, m, s.name⟩
  | .returned (.success out b) =>
    match checkFs out with
    | none => .inl ⟨.IOFailure, "output missing", s.name⟩
    | some 0 => .inl ⟨.EmptyOutput, "output empty", s.name⟩
    | some (_ + 1) => .inr (out, b)

/-- Modelled from the spec: sequential fallback over the candidate list;
returns the assembled result together with the trace of attempted
strategy names in attempt order. -/
def tryStrategies (checkFs : String → Option Nat) (req : ConversionRequest) :
    List Strategy → List FailureInfo → ConversionResult × List String
  | [], acc => (.failure acc.reverse, [])
  | s :: rest, acc =>
    match attempt checkFs req s with
    | .inl info =>
      let r := tryStrategies checkFs req rest (info :: acc)
      (r.1, s.name :: r.2)
    | .inr (out, b) => (.success out b s.name acc.reverse, [s.name])

/-- Modelled from the spec: ConversionEngine.convert with an attempt
trace: validation first (terminal on failure, zero attempts), then the
ordered candidates (NoStrategyAvailable when empty), then sequential
fallback. -/
def convertT (registered : List Strategy) (fs checkFs : String → Option Nat)
    (maxSize : Nat) (req : ConversionRequest) : ConversionResult × List String :=
  match validate fs req.sourcePath req.sourceFormat (req.maxSizeOverride.getD maxSize) with
  | .invalid e => (.failure [⟨e, "validation failed", ""⟩], [])
  | .valid =>
    match order registered req.sourceFormat req.targetFormat with
    | [] => (.failure [⟨.NoStrategyAvailable, "no strategy available", ""⟩], [])
    | s :: rest => tryStrategies checkFs req (s :: rest) []

/-- Modelled from the spec: ConversionEngine.convert, the result part of
`convertT`. -/
def convert (registered : List Strategy) (fs checkFs : String → Option Nat)
    (maxSize : Nat) (req : ConversionRequest) : ConversionResult :=
  (convertT registered fs checkFs maxSize req).1

/-- Does a conversion result report success? -/
def isSuccess : ConversionResult → Bool
  | .success _ _ _ _ => true
  | .failure _ => false

/-- Modelled from the spec: the request BatchRunner builds for one file. -/
def mkRequest (name : String) (src target : Format) : ConversionRequest :=
  ⟨name, src, target, none, none⟩

/-- Modelled from the spec: the aggregate report of a batch run. -/
structure BatchJob where
  results : List (String × ConversionResult)
  attempted : Nat
  succeeded : Nat
  failed : Nat
deriving DecidableEq, Repr

/-- Modelled from the spec: the eligible files of a directory listing:
those whose name resolves to a readable format, paired with it. -/
def eligibleFiles (files : List String) : List (String × Format) :=
  (files.filterMap (fun n => (resolveName n).map (fun f => (n, f)))).filter
    (fun p => readable p.2)

/-- Modelled from the spec: BatchRunner.run converts each eligible file
independently and aggregates every per-file outcome into a BatchJob. -/
def BatchRunner.run (registered : List Strategy) (fs checkFs : String → Option Nat)
    (maxSize : Nat) (target : Format) (files : List String) : BatchJob :=
  let results := (eligibleFiles files).map
    (fun p => (p.1, convert registered fs checkFs maxSize (mkRequest p.1 p.2 target)))
  { results := results
    attempted := results.length
    succeeded := (results.filter (fun r => isSuccess r.2)).length
    failed := (results.filter (fun r => ! isSuccess r.2)).length }

/-! The MCP server layer, embedded from `src/index.ts`. -/

/-- State of the McpServer model: its metadata and the tool names
registered so far, in registration order. -/
structure McpServerModel where
  serverName : String
  version : String
  tools : List String
deriving DecidableEq, Repr

/-- Embeds `server.registerTool(name, ...)` from `src/index.ts`. -/
def registerTool (s : McpServerModel) (toolName : String) : McpServerModel :=
  { s with tools := s.tools ++ [toolName] }

/-- Embeds `createServer` from `src/index.ts`: a server named
`Basic Server` version `1.0.0` with two tools registered in order. -/
def createServer : McpServerModel :=
  let server : McpServerModel := ⟨"Basic Server", "1.0.0", []⟩
  let server := registerTool server "getUserVisitInfo"
  let server := registerTool server "getChatRecords"
  server

/-- A row of the `sys_user_dau` data model as the handler reads it: the
two projected fields plus whatever else the row carries. -/
structure DbVisitRow where
  device : String
  visit_time : Nat
  otherFields : String
deriving DecidableEq, Repr

/-- A row of the `ai_bot_chat_history_5hobd2b` data model as the handler
reads it: the two projected fields plus whatever else the row carries. -/
structure DbChatRow where
  content : String
  role : String
  otherFields : String
deriving DecidableEq, Repr

/-- The `res.data` shape returned by `app.models.*.list` with
`getCount: true`: a total and the fetched records. -/
structure ListData (α : Type) where
  total : Nat
  records : List α
deriving DecidableEq, Repr

/-- The projected record shape of `getUserVisitInfo` output. -/
structure VisitRecordOut where
  device : String
  visitTime : Nat
deriving DecidableEq, Repr

/-- The projected record shape of `getChatRecords` output. -/
structure ChatRecordOut where
  content : String
  role : String
deriving DecidableEq, Repr

/-- A tool response: its text content entries and structured content. -/
structure ToolResponse (σ : Type) where
  contentText : List String
  structuredContent : σ
deriving DecidableEq, Repr

/-- JSON escaping of one character, as JSON.stringify does for the
characters these rows can carry. -/
def escapeChar (c : Char) : String :=
  if c = '"' then "\\\"" else if c = '\\' then "\\\\" else String.singleton c

/-- JSON escaping of a string body. -/
def jsonEscape (s : String) : String := String.join (s.toList.map escapeChar)

/-- A JSON string literal. -/
def jsonString (s : String) : String := "\"" ++ jsonEscape s ++ "\""

/-- A JSON array from already-rendered members. -/
def jsonArr (xs : List String) : String := "[" ++ String.intercalate "," xs ++ "]"

/-- JSON rendering of one visit record, field order as in the source. -/
def visitRecordJson (r : VisitRecordOut) : String :=
  "\x7b" ++ jsonString "device" ++ ":" ++ jsonString r.device ++ "," ++
    jsonString "visitTime" ++ ":" ++ toString r.visitTime ++ "\x7d"

/-- JSON rendering of the `getUserVisitInfo` structured content, as
`JSON.stringify(structuredContent)` produces it. -/
def visitJson (sc : ListData VisitRecordOut) : String :=
  "\x7b" ++ jsonString "total" ++ ":" ++ toString sc.total ++ "," ++
    jsonString "records" ++ ":" ++ jsonArr (sc.records.map visitRecordJson) ++ "\x7d"

/-- JSON rendering of one chat record, field order as in the source. -/
def chatRecordJson (r : ChatRecordOut) : String :=
  "\x7b" ++ jsonString "content" ++ ":" ++ jsonString r.content ++ "," ++
    jsonString "role" ++ ":" ++ jsonString r.role ++ "\x7d"

/-- JSON rendering of the `getChatRecords` structured content, as
`JSON.stringify(structuredContent)` produces it. -/
def chatJson (sc : ListData ChatRecordOut) : String :=
  "\x7b" ++ jsonString "total" ++ ":" ++ toString sc.total ++ "," ++
    jsonString "records" ++ ":" ++ jsonArr (sc.records.map chatRecordJson) ++ "\x7d"

/-- Embeds the `getUserVisitInfo` handler of `src/index.ts`, with the
awaited `res.data` of the database call as input: it projects each row to
its device and visit time and returns one text entry holding the
stringified structured content. -/
def getUserVisitInfoHandler (data : ListData DbVisitRow) :
    ToolResponse (ListData VisitRecordOut) :=
  let structuredContent : ListData VisitRecordOut :=
    { total := data.total
      records := data.records.map (fun x => ⟨x.device, x.visit_time⟩) }
  { contentText := [visitJson structuredContent]
    structuredContent := structuredContent }

/-- Embeds the `getChatRecords` handler of `src/index.ts`, with the
awaited `res.data` of the database call as input: it projects each row to
its content and role and returns one text entry holding the stringified
structured content. -/
def getChatRecordsHandler (data : ListData DbChatRow) :
    ToolResponse (ListData ChatRecordOut) :=
  let structuredContent : ListData ChatRecordOut :=
    { total := data.total
      records := data.records.map (fun x => ⟨x.content, x.role⟩) }
  { contentText := [chatJson structuredContent]
    structuredContent := structuredContent }

/-- Embeds the `verifyAccess` option computed in `main` of `index.ts`:
`process.env.SKIP_VERIFY_ACCESS === 'true' ? false : true`, where the
environment variable may be unset. -/
def verifyAccessOption (skipVerifyAccessEnv : Option String) : Bool :=
  if skipVerifyAccessEnv = some "true" then false else true

/-! Concrete fixtures used to instantiate the theorems below. -/

/-- A capability predicate accepting every format pair. -/
def allPairs : Format → Format → Bool := fun _ _ => true

/-- A capability predicate accepting only markdown sources. -/
def mdOnly : Format → Format → Bool := fun s _ => decide (s = Format.markdown)

/-- A strategy whose backend reports a structured timeout failure. -/
def sFail : Strategy := ⟨"pandoc", 1, allPairs, fun _ => .returned (.failure .Timeout "backend timed out")⟩

/-- A strategy whose backend succeeds writing `out.html`. -/
def sOk : Strategy := ⟨"custom", 2, allPairs, fun _ => .returned (.success "out.html" 5)⟩

/-- A second always-failing strategy, registered at lower priority. -/
def sFail2 : Strategy := ⟨"custom2", 3, allPairs, fun _ => .returned (.failure .Timeout "backend timed out")⟩

/-- A strategy whose backend raises an unexpected fault. -/
def sBoom : Strategy := ⟨"crasher", 1, allPairs, fun _ => .fault "segfault"⟩

/-- A strategy whose backend reports success but whose output file is
observed empty. -/
def sEmptyOut : Strategy := ⟨"emptyback", 1, allPairs, fun _ => .returned (.success "empty.html" 7)⟩

/-- A demo input file system: a small markdown file and an oversized pdf. -/
def demoFs : String → Option Nat :=
  fun p => if p = "in.md" then some 10
    else if p = "big.pdf" then some (MAX_FILE_SIZE + 1) else none

/-- A demo output file system: `out.html` holds 5 bytes, `empty.html`
holds 0 bytes. -/
def demoChk : String → Option Nat :=
  fun p => if p = "out.html" then some 5
    else if p = "empty.html" then some 0 else none

/-- A demo conversion request for the small markdown file. -/
def demoReq : ConversionRequest := ⟨"in.md", .markdown, .html, none, none⟩

/-- A demo conversion request for the oversized pdf. -/
def bigReq : ConversionRequest := ⟨"big.pdf", .pdf, .docx, none, none⟩

/-- A demo request whose (pdf, docx) pair no selector strategy handles. -/
def noPairReq : ConversionRequest := ⟨"in.md", .pdf, .docx, none, none⟩

/-- Selector fixture: priority 2, registered first. -/
def wA : Strategy := ⟨"A", 2, mdOnly, fun _ => .fault "unused"⟩

/-- Selector fixture: priority 1, registered second. -/
def wB : Strategy := ⟨"B", 1, mdOnly, fun _ => .fault "unused"⟩

/-- Selector fixture: priority 2, registered third (ties with `wA`). -/
def wC : Strategy := ⟨"C", 2, mdOnly, fun _ => .fault "unused"⟩

/-- Selector fixture registration list. -/
def demoSel : List Strategy := [wA, wB, wC]

/-! Helper lemmas shared by the claim theorems. -/

/-- Splitting a list by a Boolean predicate preserves its length. -/
theorem length_filter_add_length_filter_not {α : Type} (p : α → Bool) (l : List α) :
    (l.filter p).length + (l.filter (fun a => ! p a)).length = l.length := by
  induction l with
  | nil => rfl
  | cons a l ih =>
    by_cases h : p a = true <;> simp only [List.filter_cons, h] <;> simp <;> omega

/-- When every candidate reports a structured failure, sequential fallback
aggregates one reason per candidate in attempt order and attempts each
candidate exactly once. -/
theorem tryStrategies_all_fail (checkFs : String → Option Nat) (req : ConversionRequest)
    (fk : Strategy → ErrorKind) (fm : Strategy → String) (cands : List Strategy) :
    ∀ acc : List FailureInfo,
      (∀ s ∈ cands, s.execute req = .returned (.failure (fk s) (fm s))) →
      tryStrategies checkFs req cands acc =
        (.failure (acc.reverse ++ cands.map (fun s => ⟨fk s, fm s, s.name⟩)),
         cands.map (fun s => s.name)) := by
  induction cands with
  | nil => intro acc _; simp [tryStrategies]
  | cons s rest ih =>
    intro acc h
    have hs := h s (by simp)
    have ih2 := ih (⟨fk s, fm s, s.name⟩ :: acc) (fun t ht => h t (by simp [ht]))
    simp [tryStrategies, attempt, hs, ih2]

/-- Within one priority rank, ordered insertion keeps the inserted element
in front of the existing elements of that rank. -/
theorem filter_priority_orderedInsert (p : Nat) (a : Strategy) (l : List Strategy) :
    (List.orderedInsert stratLE a l).filter (fun st => st.priority == p) =
      if a.priority == p then a :: l.filter (fun st => st.priority == p)
      else l.filter (fun st => st.priority == p) := by
  induction l with
  | nil =>
    by_cases hap : a.priority = p <;> simp [List.orderedInsert, List.filter_cons, hap]
  | cons b l ih =>
    by_cases hab : stratLE a b
    · by_cases hap : a.priority = p <;> simp [List.orderedInsert, hab, List.filter_cons, hap]
    · have hb : b.priority < a.priority := Nat.lt_of_not_le hab
      by_cases hap : a.priority = p
      · have hbp : ¬ b.priority = p := by omega
        simp [List.orderedInsert, hab, List.filter_cons, hap, hbp, ih]
      · by_cases hbp : b.priority = p <;>
          simp [List.orderedInsert, hab, List.filter_cons, hap, hbp, ih]

/-- Insertion sort by priority is stable: restricted to any one priority
rank, the sorted list keeps the input order. -/
theorem filter_priority_insertionSort (p : Nat) (l : List Strategy) :
    (List.insertionSort stratLE l).filter (fun st => st.priority == p) =
      l.filter (fun st => st.priority == p) := by
  induction l with
  | nil => rfl
  | cons a l ih =>
    by_cases hap : a.priority = p <;>
      simp [List.insertionSort, filter_priority_orderedInsert, List.filter_cons, hap, ih]

/-! Claim theorems. -/

/-- Claim C1: for a request passing validation whose ordered candidate
list starts with two strategies, if the first reports a structured failure
and the second succeeds with a non-empty output, then the engine returns a
success attributing `strategyUsed` to the second strategy, the attempt
trace stops right after the second strategy (later candidates are never
attempted), and the first strategy's failure is retained only in the
diagnostic data of the success, not as the primary result. -/
theorem convert_fallback_to_second_success
    (registered : List Strategy) (fs checkFs : String → Option Nat) (maxSize : Nat)
    (req : ConversionRequest) (s1 s2 : Strategy) (rest : List Strategy)
    (k : ErrorKind) (m out : String) (b n : Nat)
    (hval : validate fs req.sourcePath req.sourceFormat (req.maxSizeOverride.getD maxSize) = .valid)
    (hord : order registered req.sourceFormat req.targetFormat = s1 :: s2 :: rest)
    (hx1 : s1.execute req = .returned (.failure k m))
    (hx2 : s2.execute req = .returned (.success out b))
    (hchk : checkFs out = some (n + 1)) :
    convertT registered fs checkFs maxSize req =
      (.success out b s2.name [⟨k, m, s1.name⟩], [s1.name, s2.name]) := by
  simp [convertT, hval, hord, tryStrategies, attempt, hx1, hx2, hchk]

/-- Witness for C1 at a concrete request and strategy pair. -/
theorem convert_fallback_to_second_success_witness :
    convertT [sFail, sOk] demoFs demoChk 100 demoReq =
      (.success "out.html" 5 "custom" [⟨.Timeout, "backend timed out", "pandoc"⟩],
       ["pandoc", "custom"]) :=
  convert_fallback_to_second_success [sFail, sOk] demoFs demoChk 100 demoReq
    sFail sOk [] .Timeout "backend timed out" "out.html" 5 4 rfl rfl rfl rfl rfl

/-- Claim C2: any validation failure is terminal: the engine returns a
failure carrying exactly the validation error and its attempt trace is
empty (zero strategy attempts); in particular a file larger than the
configured limit fails validation with `FileTooLarge`. -/
theorem convert_validation_failure_terminal
    (registered : List Strategy) (fs checkFs : String → Option Nat) (maxSize : Nat)
    (req : ConversionRequest) :
    (∀ e, validate fs req.sourcePath req.sourceFormat (req.maxSizeOverride.getD maxSize) = .invalid e →
      convertT registered fs checkFs maxSize req = (.failure [⟨e, "validation failed", ""⟩], [])) ∧
    (∀ size, fs req.sourcePath = some size → req.maxSizeOverride.getD maxSize < size →
      validate fs req.sourcePath req.sourceFormat (req.maxSizeOverride.getD maxSize) =
        .invalid .FileTooLarge) := by
  constructor
  · intro e hval
    simp [convertT, hval]
  · intro size hfs hlt
    simp [validate, hfs, readable, hlt]

/-- Witness for C2 at a concrete oversized file. -/
theorem convert_validation_failure_terminal_witness :
    convertT [sFail, sOk] demoFs demoChk MAX_FILE_SIZE bigReq =
      (.failure [⟨.FileTooLarge, "validation failed", ""⟩], []) :=
  (convert_validation_failure_terminal [sFail, sOk] demoFs demoChk MAX_FILE_SIZE bigReq).1
    .FileTooLarge
    ((convert_validation_failure_terminal [sFail, sOk] demoFs demoChk MAX_FILE_SIZE bigReq).2
      (MAX_FILE_SIZE + 1) rfl (by decide))

/-- Claim C3: when validation passes, at least one candidate exists, and
every candidate reports a structured failure, the engine returns an
aggregated failure holding exactly one reason per attempted strategy, in
attempt order, none dropped, and attempts every candidate exactly once. -/
theorem convert_all_fail_aggregates
    (registered : List Strategy) (fs checkFs : String → Option Nat) (maxSize : Nat)
    (req : ConversionRequest) (s0 : Strategy) (rest : List Strategy)
    (fk : Strategy → ErrorKind) (fm : Strategy → String)
    (hval : validate fs req.sourcePath req.sourceFormat (req.maxSizeOverride.getD maxSize) = .valid)
    (hord : order registered req.sourceFormat req.targetFormat = s0 :: rest)
    (hfail : ∀ s ∈ s0 :: rest, s.execute req = .returned (.failure (fk s) (fm s))) :
    convertT registered fs checkFs maxSize req =
      (.failure ((s0 :: rest).map (fun s => ⟨fk s, fm s, s.name⟩)),
       (s0 :: rest).map (fun s => s.name)) := by
  have h := tryStrategies_all_fail checkFs req fk fm (s0 :: rest) [] hfail
  simp only [List.reverse_nil, List.nil_append] at h
  simp [convertT, hval, hord, h]

/-- Witness for C3 with two failing strategies. -/
theorem convert_all_fail_aggregates_witness :
    convertT [sFail, sFail2] demoFs demoChk 100 demoReq =
      (.failure [⟨.Timeout, "backend timed out", "pandoc"⟩,
                 ⟨.Timeout, "backend timed out", "custom2"⟩],
       ["pandoc", "custom2"]) :=
  convert_all_fail_aggregates [sFail, sFail2] demoFs demoChk 100 demoReq
    sFail [sFail2] (fun _ => .Timeout) (fun _ => "backend timed out") rfl rfl
    (by
      intro s hs
      simp only [List.mem_cons, List.not_mem_nil, or_false] at hs
      rcases hs with rfl | rfl <;> rfl)

/-- Claim C4: for every format pair, StrategySelector returns exactly the
registered strategies supporting the pair (as a permutation of the
filtered registration list), sorted ascending by priority, with ties kept
stably in registration order (the restriction to any single priority rank
equals the filtered registration list's); and whenever the candidate
sequence is empty, the engine on a validated request returns a terminal
`NoStrategyAvailable` failure with an empty attempt trace, so it is
attributed to no strategy execution. -/
theorem strategySelector_order_spec (registered : List Strategy) (s t : Format) :
    (order registered s t).Perm (registered.filter (fun st => st.supports s t)) ∧
    (order registered s t).Sorted stratLE ∧
    (∀ p : Nat, (order registered s t).filter (fun st => st.priority == p) =
      (registered.filter (fun st => st.supports s t)).filter (fun st => st.priority == p)) ∧
    (∀ (fs checkFs : String → Option Nat) (maxSize : Nat) (req : ConversionRequest),
      req.sourceFormat = s → req.targetFormat = t →
      validate fs req.sourcePath req.sourceFormat (req.maxSizeOverride.getD maxSize) = .valid →
      order registered s t = [] →
      convertT registered fs checkFs maxSize req =
        (.failure [⟨.NoStrategyAvailable, "no strategy available", ""⟩], [])) := by
  refine ⟨List.perm_insertionSort stratLE _, List.sorted_insertionSort stratLE _,
    fun p => filter_priority_insertionSort p _, ?_⟩
  intro fs checkFs maxSize req hs ht hval hempty
  subst hs; subst ht
  simp [convertT, hval, hempty]

/-- Witness for C4: the demo selector has a priority tie (`wA` before
`wC`) and supports only markdown sources, so the (pdf, docx) pair has no
candidate and a validated request for it fails with NoStrategyAvailable. -/
theorem strategySelector_order_spec_witness :
    (order demoSel .markdown .html).Perm
      (demoSel.filter (fun st => st.supports .markdown .html)) ∧
    (order demoSel .markdown .html).Sorted stratLE ∧
    ((order demoSel .markdown .html).filter (fun st => st.priority == 2) =
      (demoSel.filter (fun st => st.supports .markdown .html)).filter
        (fun st => st.priority == 2)) ∧
    convertT demoSel demoFs demoChk 100 noPairReq =
      (.failure [⟨.NoStrategyAvailable, "no strategy available", ""⟩], []) :=
  ⟨(strategySelector_order_spec demoSel .markdown .html).1,
   (strategySelector_order_spec demoSel .markdown .html).2.1,
   (strategySelector_order_spec demoSel .markdown .html).2.2.1 2,
   (strategySelector_order_spec demoSel .pdf .docx).2.2.2 demoFs demoChk 100 noPairReq
     rfl rfl rfl rfl⟩

/-- Claim C5: when a candidate strategy raises an unexpected fault, the
engine records it as a `BackendFault` failure for that strategy and
continues with the remaining candidates: the overall result is exactly
that of the fallback over the rest with the fault recorded, so a backend
crash never aborts the convert call. -/
theorem convert_backendFault_continues
    (registered : List Strategy) (fs checkFs : String → Option Nat) (maxSize : Nat)
    (req : ConversionRequest) (s : Strategy) (rest : List Strategy) (msg : String)
    (hval : validate fs req.sourcePath req.sourceFormat (req.maxSizeOverride.getD maxSize) = .valid)
    (hord : order registered req.sourceFormat req.targetFormat = s :: rest)
    (hx : s.execute req = .fault msg) :
    convertT registered fs checkFs maxSize req =
      ((tryStrategies checkFs req rest [⟨.BackendFault, msg, s.name⟩]).1,
       s.name :: (tryStrategies checkFs req rest [⟨.BackendFault, msg, s.name⟩]).2) := by
  simp [convertT, hval, hord, tryStrategies, attempt, hx]

/-- Witness for C5: a crashing first strategy is recorded as BackendFault
and the second strategy still delivers the success. -/
theorem convert_backendFault_continues_witness :
    convertT [sBoom, sOk] demoFs demoChk 100 demoReq =
      (.success "out.html" 5 "custom" [⟨.BackendFault, "segfault", "crasher"⟩],
       ["crasher", "custom"]) := by
  rw [convert_backendFault_continues [sBoom, sOk] demoFs demoChk 100 demoReq
    sBoom [sOk] "segfault" rfl rfl rfl]
  rfl

/-- Claim C6: when a strategy reports success but the engine observes the
declared output as zero bytes, the attempt is recorded as an `EmptyOutput`
failure for that strategy despite the reported success, and fallback
continues with the remaining candidates. -/
theorem convert_emptyOutput_fallback
    (registered : List Strategy) (fs checkFs : String → Option Nat) (maxSize : Nat)
    (req : ConversionRequest) (s : Strategy) (rest : List Strategy) (out : String) (b : Nat)
    (hval : validate fs req.sourcePath req.sourceFormat (req.maxSizeOverride.getD maxSize) = .valid)
    (hord : order registered req.sourceFormat req.targetFormat = s :: rest)
    (hx : s.execute req = .returned (.success out b))
    (hchk : checkFs out = some 0) :
    convertT registered fs checkFs maxSize req =
      ((tryStrategies checkFs req rest [⟨.EmptyOutput, "output empty", s.name⟩]).1,
       s.name :: (tryStrategies checkFs req rest [⟨.EmptyOutput, "output empty", s.name⟩]).2) := by
  simp [convertT, hval, hord, tryStrategies, attempt, hx, hchk]

/-- Witness for C6: a backend claiming 7 bytes written while the observed
file is empty is recorded as EmptyOutput and the next strategy succeeds. -/
theorem convert_emptyOutput_fallback_witness :
    convertT [sEmptyOut, sOk] demoFs demoChk 100 demoReq =
      (.success "out.html" 5 "custom" [⟨.EmptyOutput, "output empty", "emptyback"⟩],
       ["emptyback", "custom"]) := by
  rw [convert_emptyOutput_fallback [sEmptyOut, sOk] demoFs demoChk 100 demoReq
    sEmptyOut [sOk] "empty.html" 7 rfl rfl rfl rfl]
  rfl

/-- Claim C7: BatchRunner converts each eligible file exactly once, keeps
one entry per attempted file in its result mapping regardless of each
file's outcome (so one failure never aborts the iteration), and the final
counts satisfy attempted = succeeded + failed. -/
theorem batchRunner_run_spec (registered : List Strategy) (fs checkFs : String → Option Nat)
    (maxSize : Nat) (target : Format) (files : List String) :
    (BatchRunner.run registered fs checkFs maxSize target files).attempted =
      (BatchRunner.run registered fs checkFs maxSize target files).succeeded +
        (BatchRunner.run registered fs checkFs maxSize target files).failed ∧
    (BatchRunner.run registered fs checkFs maxSize target files).results =
      (eligibleFiles files).map
        (fun p => (p.1, convert registered fs checkFs maxSize (mkRequest p.1 p.2 target))) ∧
    (BatchRunner.run registered fs checkFs maxSize target files).results.map Prod.fst =
      (eligibleFiles files).map Prod.fst := by
  refine ⟨(length_filter_add_length_filter_not
    (fun r : String × ConversionResult => isSuccess r.2) _).symm, rfl, ?_⟩
  simp [BatchRunner.run]

/-- Claim C8: the server built by `createServer` registers exactly the two
tools `getUserVisitInfo` and `getChatRecords`, in that order, and no
document-conversion, batch-conversion, format-listing or file-info tool. -/
theorem createServer_registers_two_db_tools :
    createServer.tools = ["getUserVisitInfo", "getChatRecords"] ∧
    "convert_document" ∉ createServer.tools ∧
    "batch_convert" ∉ createServer.tools ∧
    "list_supported_formats" ∉ createServer.tools ∧
    "get_file_info" ∉ createServer.tools := by
  refine ⟨rfl, ?_, ?_, ?_, ?_⟩ <;> decide

/-- Claim C9: for every fetched record set, each handler returns a single
text content entry equal to the JSON rendering of its structured content,
and the structured records are the element-wise projection of the fetched
records (device and visit time, respectively content and role), preserving
order (the map equation) and length. -/
theorem tool_handlers_content_spec (resV : ListData DbVisitRow) (resC : ListData DbChatRow) :
    ((getUserVisitInfoHandler resV).contentText =
        [visitJson (getUserVisitInfoHandler resV).structuredContent] ∧
      (getUserVisitInfoHandler resV).structuredContent.records =
        resV.records.map (fun x => ⟨x.device, x.visit_time⟩) ∧
      (getUserVisitInfoHandler resV).structuredContent.records.length =
        resV.records.length) ∧
    ((getChatRecordsHandler resC).contentText =
        [chatJson (getChatRecordsHandler resC).structuredContent] ∧
      (getChatRecordsHandler resC).structuredContent.records =
        resC.records.map (fun x => ⟨x.content, x.role⟩) ∧
      (getChatRecordsHandler resC).structuredContent.records.length =
        resC.records.length) := by
  refine ⟨⟨rfl, rfl, ?_⟩, ⟨rfl, rfl, ?_⟩⟩ <;>
    simp [getUserVisitInfoHandler, getChatRecordsHandler]

/-- Claim C10: the runner option disables access verification exactly when
the environment variable SKIP_VERIFY_ACCESS is set to the string `true`;
any other value, including unset, leaves verification enabled. -/
theorem main_verifyAccess_spec (v : Option String) :
    verifyAccessOption v = false ↔ v = some "true" := by
  by_cases h : v = some "true" <;> simp [verifyAccessOption, h]

end DocConv
